import Mathlib

/-!
# WhatsApp gateway: connection lifecycle, dispatch and HTTP handlers

A shallow embedding of `whatsapp-client.js` (class `WhatsAppClient`) and of the
`/status` and `/send-message` handlers of `server.js`.

* JavaScript values are the inductive type `JSVal`; the operators the source
  applies to them (`?.`, `instanceof`, `!==`, truthiness, `&&`) are functions on it.
* A method of the class is a function from the object's fields (and the method's
  arguments) to the new fields, the side effects it performs, and its result.
  Side effects (timers, calls on the provider handle) are recorded as a list.
* What the outside world answers (does `makeWASocket` succeed, does the provider
  accept a message, what time is it) is an argument of the function.
* Strings are sequences of code points. Arguments and body fields have the types the
  API schema gives them (strings, possibly missing).
* Console output is not recorded.
-/

namespace WhatsAppApi

/-! ## JavaScript values -/

/-- JavaScript values. An object carries the name of the class it was constructed by
and its own properties. -/
inductive JSVal where
  | undefined
  | null
  | bool (b : Bool)
  | num (n : Int)
  | str (s : String)
  | obj (cls : String) (fields : List (String × JSVal))

/-- Property read `v.key` on a value that is neither `null` nor `undefined`. An object
answers with its own property (or `undefined`); a boolean, number or string primitive
answers `undefined` for every key the source reads (`connection`, `lastDisconnect`,
`qr`, `error`, `output`, `statusCode`, `password`): its wrapper prototype has none of
them. -/
def JSVal.get (v : JSVal) (key : String) : JSVal :=
  match v with
  | .obj _ fields => (fields.lookup key).getD .undefined
  | _ => .undefined

/-- Optional chaining `v?.key`: `undefined` when `v` is `null` or `undefined`,
otherwise the property read. -/
def JSVal.optGet (v : JSVal) (key : String) : JSVal :=
  match v with
  | .undefined => .undefined
  | .null => .undefined
  | w => w.get key

/-- The operator `v instanceof C`: a boolean, true for an object constructed by `C`. -/
def JSVal.instanceOf (v : JSVal) (cls : String) : Bool :=
  match v with
  | .obj c _ => c == cls
  | _ => false

/-- Strict equality `a === b` between a value and a primitive: same type and same
value. Two objects are equal only by identity, which never holds between an object
and a primitive constant. -/
def JSVal.strictEq : JSVal → JSVal → Bool
  | .undefined, .undefined => true
  | .null, .null => true
  | .bool a, .bool b => a == b
  | .num a, .num b => a == b
  | .str a, .str b => a == b
  | _, _ => false

/-- Truthiness, as used by `if (v)`, `!v`, `a && b` and `a || b`. -/
def JSVal.truthy : JSVal → Bool
  | .undefined => false
  | .null => false
  | .bool b => b
  | .num n => n != 0
  | .str s => s != ""
  | .obj _ _ => true

/-- An optional string argument or field as a JavaScript value: `undefined` when absent. -/
def JSVal.ofOption : Option String → JSVal
  | none => .undefined
  | some s => .str s

/-- Property write on an own-property list: an existing key keeps its place and gets
the new value, a new key is appended. -/
def setField (key : String) (v : JSVal) : List (String × JSVal) → List (String × JSVal)
  | [] => [(key, v)]
  | (k, w) :: rest => if k = key then (k, v) :: rest else (k, w) :: setField key v rest

/-- Object literal `{k1: v1, k2: v2, ...}` (keys may be computed): the properties are
defined from left to right, a repeated key overwriting the earlier value. -/
def objectLiteral (props : List (String × JSVal)) : JSVal :=
  .obj "Object" (props.foldl (fun acc kv => setField kv.1 kv.2 acc) [])

/-! ## The client object -/

/-- Fields of a `WhatsAppClient`. `sock` is `null` (`none`) or the handle returned by
`makeWASocket`; handles are told apart by a number. -/
structure WhatsAppClient where
  sock : Option Nat
  isConnected : Bool
  authFolder : String

/-- Side effects a method performs on the outside world. -/
inductive Effect where
  /-- Call of `qrcode.generate(qr, ...)`. -/
  | qrGenerate (qr : JSVal)
  /-- Call of `setTimeout(() => this.connect(), delay)`. -/
  | setTimeoutConnect (delay : Nat)
  /-- Call of `sock.ev.on(event, ...)` on handle `sock`. -/
  | evOn (sock : Nat) (event : String)
  /-- Call of `sock.end()` on handle `sock`. -/
  | sockEnd (sock : Nat)
  /-- Call of `sock.sendMessage(jid, content)` on handle `sock`. -/
  | sockSendMessage (sock : Nat) (jid : String) (content : JSVal)
  /-- A handler calls `whatsappClient.sendMessage(receiver, message, media)`. -/
  | sendMessageCall (receiver message : String) (media : Option String)

/-- Is the effect a scheduled retry of `connect()`? -/
def Effect.isRetry : Effect → Bool
  | .setTimeoutConnect _ => true
  | _ => false

/-- Is the effect a call on the provider handle (`end` or `sendMessage`)? -/
def Effect.isProviderCall : Effect → Bool
  | .sockEnd _ => true
  | .sockSendMessage _ _ _ => true
  | _ => false

/-- The `constructor()` of the class: a fresh client. -/
def WhatsAppClient.fresh : WhatsAppClient :=
  { sock := none, isConnected := false, authFolder := "./auth_info_baileys" }

/-- Method `connect()`. The argument `made` is what the `try` block meets before the listeners are
registered: `some h` when the auth folder, the auth state and `makeWASocket` all
succeed and the new handle is `h`; `none` when one of them throws, in which case the
`catch` returns `false` and no field has been written. -/
def connect (c : WhatsAppClient) (made : Option Nat) : WhatsAppClient × List Effect × Bool :=
  match made with
  | some h =>
    ({ c with sock := some h }, [.evOn h "connection.update", .evOn h "creds.update"], true)
  | none => (c, [], false)

/-- The `connection.update` listener registered by `connect()`, run on the event
payload `update`. `loggedOut` is the provider's constant `DisconnectReason.loggedOut`
(a number). -/
def onConnectionUpdate (loggedOut : Int) (c : WhatsAppClient) (update : JSVal) :
    WhatsAppClient × List Effect :=
  let connection := update.get "connection"
  let lastDisconnect := update.get "lastDisconnect"
  let qr := update.get "qr"
  let shown : List Effect := if qr.truthy then [.qrGenerate qr] else []
  if connection.strictEq (.str "close") then
    let shouldReconnect :=
      !((((JSVal.bool ((lastDisconnect.optGet "error").instanceOf "Boom")).optGet
          "output").optGet "statusCode").strictEq (.num loggedOut))
    if shouldReconnect then (c, shown ++ [.setTimeoutConnect 3000]) else (c, shown)
  else if connection.strictEq (.str "open") then
    ({ c with isConnected := true }, shown)
  else (c, shown)

/-- Method `isReady()`: the value of `this.sock && this.isConnected`. The operator `&&`
yields its left operand when that is falsy (`null` here) and its right operand
otherwise. -/
def isReady (c : WhatsAppClient) : JSVal :=
  match c.sock with
  | none => .null
  | some _ => .bool c.isConnected

/-- Method `disconnect()`. The call `sock.end()` is provider code and is taken to return. -/
def disconnect (c : WhatsAppClient) : WhatsAppClient × List Effect :=
  match c.sock with
  | some h => ({ c with isConnected := false }, [.sockEnd h])
  | none => (c, [])

/-- A client whose connection is open: handle `1`, `isConnected` true. -/
def readyClient : WhatsAppClient :=
  { sock := some 1, isConnected := true, authFolder := "./auth_info_baileys" }

/-! ## Sequences of lifecycle events -/

/-- What can happen to a client: a call of `connect()` (explicit, or by a retry timer),
a `connection.update` event from the provider, a call of `disconnect()`. -/
inductive LifecycleEvent where
  | connect (made : Option Nat)
  | connectionUpdate (update : JSVal)
  | disconnect

/-- Payload of a connection-open event. -/
def openUpdate : JSVal := objectLiteral [("connection", .str "open")]

/-- Payload of a connection-closed event whose `lastDisconnect.error` is `error`. -/
def closeUpdate (error : JSVal) : JSVal :=
  objectLiteral [("connection", .str "close"),
    ("lastDisconnect", objectLiteral [("error", error)])]

/-- A `Boom` error whose `output.statusCode` is `statusCode`. -/
def boomError (statusCode : Int) : JSVal :=
  .obj "Boom" [("isBoom", .bool true),
    ("output", objectLiteral [("statusCode", .num statusCode)])]

/-- One event applied to the client. A `connection.update` event reaches the listener
only if `connect()` has registered one, that is once a handle has been created
(`sock` is never reset to `null`). -/
def step (loggedOut : Int) (c : WhatsAppClient) : LifecycleEvent → WhatsAppClient × List Effect
  | .connect made => ((connect c made).1, (connect c made).2.1)
  | .connectionUpdate update =>
    match c.sock with
    | some _ => onConnectionUpdate loggedOut c update
    | none => (c, [])
  | .disconnect => disconnect c

/-- A sequence of events applied from left to right; the effects are accumulated. -/
def run (loggedOut : Int) : WhatsAppClient → List LifecycleEvent → WhatsAppClient × List Effect
  | c, [] => (c, [])
  | c, e :: es =>
    ((run loggedOut (step loggedOut c e).1 es).1,
      (step loggedOut c e).2 ++ (run loggedOut (step loggedOut c e).1 es).2)

/-- The readiness the specification describes, read off the events alone: true when
the most recent open/close event observed for the current session is an open.
`session` says whether a session exists: one starts (with nothing observed yet) when
`connect()` creates a handle and ends with `disconnect()`; an event outside a session
is not observed. -/
def specReady : List LifecycleEvent → Bool → Bool → Bool
  | [], _, ready => ready
  | .connect (some _) :: es, _, _ => specReady es true false
  | .connect none :: es, session, ready => specReady es session ready
  | .connectionUpdate update :: es, session, ready =>
    if !session then specReady es session ready
    else if (update.get "connection").strictEq (.str "close") then specReady es session false
    else if (update.get "connection").strictEq (.str "open") then specReady es session true
    else specReady es session ready
  | .disconnect :: es, _, _ => specReady es false false

/-! ## Media kind -/

/-- Lower-case form of one code point under `String.prototype.toLowerCase`: exact on
ASCII, on U+212A (KELVIN SIGN) and on U+0130, the only code points outside ASCII whose
lower-case form contains an ASCII letter. Any other code point is kept as it is;
JavaScript may map it to another code point outside ASCII, and neither form occurs in
a `case` label of `getMediaType`, so every comparison there comes out the same. -/
def lowerChar (ch : Char) : List Char :=
  if ch = Char.ofNat 0x212A then ['k']
  else if ch = Char.ofNat 0x0130 then ['i', Char.ofNat 0x0307]
  else [ch.toLower]

/-- The method `s.toLowerCase()`. -/
def toLowerCase (s : String) : String :=
  String.mk (s.toList.flatMap lowerChar)

/-- Local variables of the loop of Node's `path.extname`. -/
structure ExtnameState where
  startDot : Int
  startPart : Int
  end_ : Int
  matchedSlash : Bool
  preDotState : Int

/-- The loop `for (i = path.length - 1; i >= 0; --i)` of Node's `path.extname` (POSIX
flavour). The first argument holds the characters still to visit, last one first, so
that its head is `path[i]` and the length of its tail is `i`. -/
def extnameLoop : List Char → ExtnameState → ExtnameState
  | [], st => st
  | code :: rest, st =>
    if code = '/' then
      if !st.matchedSlash then { st with startPart := (rest.length : Int) + 1 }
      else extnameLoop rest st
    else
      let st1 :=
        if st.end_ = -1 then { st with matchedSlash := false, end_ := (rest.length : Int) + 1 }
        else st
      let st2 :=
        if code = '.' then
          if st1.startDot = -1 then { st1 with startDot := (rest.length : Int) }
          else if st1.preDotState ≠ 1 then { st1 with preDotState := 1 }
          else st1
        else if st1.startDot ≠ -1 then { st1 with preDotState := -1 }
        else st1
      extnameLoop rest st2

/-- Node's library function `path.extname` (POSIX flavour), which `getMediaType` calls:
the extension of the last portion of the path, from its last `.` to the end, and the
empty string when that portion has no `.` or only a leading one. Strings are taken as
sequences of code points; `/` and `.` are single units in either view. -/
def extname (path : String) : String :=
  let st := extnameLoop path.toList.reverse
    { startDot := -1, startPart := 0, end_ := -1, matchedSlash := true, preDotState := 0 }
  if st.startDot = -1 ∨ st.end_ = -1 ∨ st.preDotState = 0 ∨
      (st.preDotState = 1 ∧ st.startDot = st.end_ - 1 ∧ st.startDot = st.startPart + 1) then ""
  else String.mk ((path.toList.drop st.startDot.toNat).take (st.end_ - st.startDot).toNat)

/-- State of the loop of `extname` once it has read a three-character extension and the
dot before it, `n` characters of the path being left to visit; `pre` is `preDotState`. -/
def afterDot (n : Nat) (pre : Int) : ExtnameState :=
  { startDot := n, startPart := 0, end_ := (n : Int) + 4, matchedSlash := false,
    preDotState := pre }

/-- The constant `extension` of `getMediaType`: `path.extname(mediaUrl).toLowerCase()`. -/
def extension (mediaUrl : String) : String :=
  toLowerCase (extname mediaUrl)

/-- The `switch (extension)` of `getMediaType`. -/
def mediaTypeOfExtension (ext : String) : String :=
  if ext = ".jpg" ∨ ext = ".jpeg" ∨ ext = ".png" ∨ ext = ".gif" ∨ ext = ".webp" then "image"
  else if ext = ".mp4" ∨ ext = ".avi" ∨ ext = ".mov" ∨ ext = ".mkv" then "video"
  else if ext = ".mp3" ∨ ext = ".wav" ∨ ext = ".ogg" ∨ ext = ".m4a" then "audio"
  else if ext = ".pdf" ∨ ext = ".doc" ∨ ext = ".docx" ∨ ext = ".txt" then "document"
  else "image"

/-- Method `getMediaType(mediaUrl)`. -/
def getMediaType (mediaUrl : String) : String :=
  mediaTypeOfExtension (extension mediaUrl)

/-- The value `sendMessage` resolves to: `{success: true, messageId, timestamp}`. -/
def sendResult (messageId now : String) : JSVal :=
  objectLiteral [("success", .bool true), ("messageId", .str messageId), ("timestamp", .str now)]

/-- The local `formattedReceiver` of `sendMessage`. -/
def formatReceiver (receiver : String) : String :=
  if !(receiver.toList.contains '@') then receiver ++ "@s.whatsapp.net" else receiver

/-- The local `messageContent` of `sendMessage`. An absent `media` is `none` (the
default `null`); `if (media)` also fails for the empty string. -/
def messageContent (message : String) (media : Option String) : JSVal :=
  if (JSVal.ofOption media).truthy then
    objectLiteral [(getMediaType (media.getD ""), objectLiteral [("url", JSVal.ofOption media)]),
      ("caption", .str message)]
  else objectLiteral [("text", .str message)]

/-- Method `sendMessage(receiver, message, media)`. The result is the resolved value, or the
message of the `Error` thrown; the guard `!this.sock || !this.isConnected` lets through
only a client with a handle and `isConnected` true. `reply` is what the provider's `sendMessage` does once
called: `.ok id` when it resolves with a result whose `key.id` is `id`, `.error msg`
when the `try` block fails there with an error whose message is `msg`. `now` is the
ISO form of the current time. -/
def sendMessage (c : WhatsAppClient) (reply : Except String String) (now : String)
    (receiver message : String) (media : Option String) :
    WhatsAppClient × List Effect × Except String JSVal :=
  match c.sock, c.isConnected with
  | some h, true =>
    (c, [.sockSendMessage h (formatReceiver receiver) (messageContent message media)],
      match reply with
      | .ok messageId => .ok (sendResult messageId now)
      | .error msg => .error ("Error al enviar mensaje: " ++ msg))
  | _, _ => (c, [], .error "WhatsApp no está conectado")

/-! ## HTTP handlers -/

/-- What a handler sends back: the status code and the JSON body. -/
structure Response where
  status : Nat
  body : JSVal

/-- The handler of `GET /status`. -/
def statusHandler (c : WhatsAppClient) (now : String) : Response :=
  Response.mk 200 (objectLiteral [("success", .bool true), ("whatsapp_connected", isReady c),
    ("timestamp", .str now)])

/-- The body of a `POST /send-message` request, typed as the `SendMessageRequest`
schema types it: three string fields, each of which may be missing (`none`). -/
structure SendMessageRequest where
  message : Option String
  receiver : Option String
  media : Option String

/-- The error body `{success: false, error}`. -/
def errorBody (error : String) : JSVal :=
  objectLiteral [("success", .bool false), ("error", .str error)]

/-- The handler of `POST /send-message`, as run after `authMiddleware` has let the
request through. -/
def sendMessageHandler (c : WhatsAppClient) (reply : Except String String) (now : String)
    (req : SendMessageRequest) : WhatsAppClient × List Effect × Response :=
  if !(JSVal.ofOption req.message).truthy then
    (c, [], Response.mk 400 (errorBody "Campo \"message\" es requerido"))
  else if !(JSVal.ofOption req.receiver).truthy then
    (c, [], Response.mk 400 (errorBody "Campo \"receiver\" es requerido"))
  else if !(isReady c).truthy then
    (c, [], Response.mk 503
      (errorBody "WhatsApp no está conectado. Espera a que se complete la conexión."))
  else
    let sent := sendMessage c reply now (req.receiver.getD "") (req.message.getD "") req.media
    (sent.1,
      Effect.sendMessageCall (req.receiver.getD "") (req.message.getD "") req.media :: sent.2.1,
      match sent.2.2 with
      | .ok result =>
        Response.mk 200 (objectLiteral [("success", .bool true), ("data", result),
          ("message", .str "Mensaje enviado exitosamente")])
      | .error msg => Response.mk 500 (errorBody msg))

/-! ## The password check -/

/-- The operator `a || b`: `a` when it is truthy, else `b`. -/
def JSVal.or (a b : JSVal) : JSVal :=
  if a.truthy then a else b

/-- The operator `a && b`: `a` when it is falsy, else `b`. -/
def JSVal.and (a b : JSVal) : JSVal :=
  if a.truthy then b else a

/-- What `authMiddleware` reads of a request: the header `x-api-password` (a string, or
absent) and `req.body` (any value; `undefined` when no body was parsed). -/
structure AuthRequest where
  header : Option String
  body : JSVal

/-- What a middleware does with a request: it calls `next()` and sends nothing, or it
sends a response and does not call `next()`, so that the handler after it is not run. -/
inductive AuthOutcome where
  | next
  | respond (res : Response)

/-- The constant `apiPassword` of `authMiddleware`:
`req.headers['x-api-password'] || (req.body && req.body.password)`. -/
def apiPassword (req : AuthRequest) : JSVal :=
  (JSVal.ofOption req.header).or (req.body.and (req.body.get "password"))

/-- The middleware `authMiddleware(req, res, next)`. The argument `expectedPassword` is
`process.env.API_PASSWORD`: a string, or `undefined` (`none`) when the variable is not
set. -/
def authMiddleware (expectedPassword : Option String) (req : AuthRequest) : AuthOutcome :=
  if !(JSVal.ofOption expectedPassword).truthy then
    .respond (Response.mk 500 (errorBody "API_PASSWORD no configurado en el servidor"))
  else if !(apiPassword req).truthy then
    .respond (Response.mk 401
      (errorBody "Password requerido. Usa header x-api-password o campo password en el body"))
  else if !((apiPassword req).strictEq (JSVal.ofOption expectedPassword)) then
    .respond (Response.mk 401 (errorBody "Password incorrecto"))
  else .next

/-! ## Lemmas: the close branch of the listener -/

/-- Reading `?.output?.statusCode` off a boolean gives `undefined`, which differs from
every number: `shouldReconnect` is true whatever the error was. -/
theorem shouldReconnect_of_bool (b : Bool) (loggedOut : Int) :
    (!((((JSVal.bool b).optGet "output").optGet "statusCode").strictEq (.num loggedOut)))
      = true := by
  rfl

/-- Showing the QR code schedules no retry. -/
theorem shown_no_retry (qr : JSVal) :
    (if qr.truthy then [Effect.qrGenerate qr] else []).countP Effect.isRetry = 0 := by
  split <;> simp [Effect.isRetry]

/-- Every close event schedules exactly one retry, whatever its reason. -/
theorem retries_on_close (loggedOut : Int) (c : WhatsAppClient) (update : JSVal)
    (h : (update.get "connection").strictEq (.str "close") = true) :
    (onConnectionUpdate loggedOut c update).2.countP Effect.isRetry = 1 := by
  simp only [onConnectionUpdate, h, if_true, shouldReconnect_of_bool]
  simp [List.countP_append, shown_no_retry, Effect.isRetry]

/-- A close event writes no field of the client. -/
theorem state_on_close (loggedOut : Int) (c : WhatsAppClient) (update : JSVal)
    (h : (update.get "connection").strictEq (.str "close") = true) :
    (onConnectionUpdate loggedOut c update).1 = c := by
  simp only [onConnectionUpdate, h, if_true, shouldReconnect_of_bool]

/-! ## Lemmas: readiness -/

/-- The value of `isReady()` is truthy exactly when a handle exists and `isConnected` is true. -/
theorem ready_iff (c : WhatsAppClient) :
    (isReady c).truthy = true ↔ ∃ h, c.sock = some h ∧ c.isConnected = true := by
  unfold isReady
  cases hs : c.sock <;> simp [JSVal.truthy]

/-- Truthiness of `isReady()` as a boolean expression of the fields. -/
theorem isReady_truthy (c : WhatsAppClient) :
    (isReady c).truthy = (c.sock.isSome && c.isConnected) := by
  unfold isReady
  cases c.sock <;> simp [JSVal.truthy]

/-! ## Lemmas: `path.extname` on a path that ends in a dot and three characters -/

/-- Once the end of the name and a dot have been seen, the loop keeps `startDot` and `end`,
and a non-zero `preDotState` stays non-zero. -/
theorem extnameLoop_keeps (rest : List Char) :
    ∀ st : ExtnameState, st.startDot ≠ -1 → st.end_ ≠ -1 →
      (extnameLoop rest st).startDot = st.startDot ∧ (extnameLoop rest st).end_ = st.end_ ∧
      (st.preDotState ≠ 0 → (extnameLoop rest st).preDotState ≠ 0) := by
  induction rest with
  | nil => intro st _ _; simp [extnameLoop]
  | cons code rest ih =>
    intro st hd he
    unfold extnameLoop
    by_cases hs : code = '/'
    · simp only [hs, if_true]
      by_cases hm : st.matchedSlash = true
      · simpa [hm] using ih st hd he
      · simp [hm]
    · simp only [hs, if_false, he]
      by_cases hdot : code = '.'
      · simp only [hdot, if_true, hd, if_false]
        by_cases hp : st.preDotState = 1
        · simpa [hp] using ih st hd he
        · have := ih { st with preDotState := 1 } hd he
          simp only [ne_eq, hp, not_false_eq_true, if_true]
          refine ⟨this.1, this.2.1, fun _ => this.2.2 (by simp)⟩
      · simp only [hdot, if_false, ne_eq, hd, not_false_eq_true, if_true]
        have := ih { st with preDotState := -1 } hd he
        refine ⟨this.1, this.2.1, fun _ => this.2.2 (by simp)⟩

/-- First character visited, neither a slash nor a dot: it marks the end of the name. -/
theorem extnameLoop_first (ch : Char) (rest : List Char) (st : ExtnameState)
    (h : ch ≠ '/' ∧ ch ≠ '.') (he : st.end_ = -1) (hd : st.startDot = -1) :
    extnameLoop (ch :: rest) st
      = extnameLoop rest { st with matchedSlash := false, end_ := (rest.length : Int) + 1 } := by
  rw [extnameLoop]
  simp [h.1, h.2, he, hd]

/-- Further character before any dot, neither a slash nor a dot: nothing changes. -/
theorem extnameLoop_plain (ch : Char) (rest : List Char) (st : ExtnameState)
    (h : ch ≠ '/' ∧ ch ≠ '.') (he : st.end_ ≠ -1) (hd : st.startDot = -1) :
    extnameLoop (ch :: rest) st = extnameLoop rest st := by
  rw [extnameLoop]
  simp [h.1, h.2, he, hd]

/-- First dot visited: it marks the start of the extension. -/
theorem extnameLoop_dot (rest : List Char) (st : ExtnameState)
    (he : st.end_ ≠ -1) (hd : st.startDot = -1) :
    extnameLoop ('.' :: rest) st = extnameLoop rest { st with startDot := (rest.length : Int) } := by
  rw [extnameLoop]
  simp [he, hd]

/-- The loop on the last four characters of a path that ends in a dot and three
characters. -/
theorem extnameLoop_suffix (r : List Char) (a b c : Char)
    (ha : a ≠ '/' ∧ a ≠ '.') (hb : b ≠ '/' ∧ b ≠ '.') (hc : c ≠ '/' ∧ c ≠ '.') :
    extnameLoop (c :: b :: a :: '.' :: r)
      { startDot := -1, startPart := 0, end_ := -1, matchedSlash := true, preDotState := 0 }
      = extnameLoop r (afterDot r.length 0) := by
  have e : ((b :: a :: '.' :: r).length : Int) + 1 = (r.length : Int) + 4 := by
    simp only [List.length_cons]; omega
  rw [extnameLoop_first c _ _ hc rfl rfl, e,
    extnameLoop_plain b _ _ hb (by show (r.length : Int) + 4 ≠ -1; omega) rfl,
    extnameLoop_plain a _ _ ha (by show (r.length : Int) + 4 ≠ -1; omega) rfl,
    extnameLoop_dot _ _ (by show (r.length : Int) + 4 ≠ -1; omega) rfl]
  rfl

/-- A character other than a slash visited after the dot sets `preDotState`. -/
theorem extnameLoop_after (ch : Char) (rest : List Char) (st : ExtnameState)
    (h : ch ≠ '/') (he : st.end_ ≠ -1) (hd : st.startDot ≠ -1) :
    extnameLoop (ch :: rest) st
      = extnameLoop rest { st with preDotState := if ch = '.' then 1 else -1 } := by
  rw [extnameLoop]
  by_cases hdot : ch = '.'
  · by_cases hp : st.preDotState = 1
    · cases st
      simp_all
    · simp [h, he, hd, hdot, hp]
  · simp [h, he, hd, hdot]

/-- Result of `extname` when the loop ends with a dot four characters before the end and a
non-zero `preDotState`. -/
theorem extname_of_loop (path : String) (S : ExtnameState) (n : Nat)
    (hS : extnameLoop path.toList.reverse
      { startDot := -1, startPart := 0, end_ := -1, matchedSlash := true, preDotState := 0 } = S)
    (h1 : S.startDot = n) (h2 : S.end_ = (n : Int) + 4) (h3 : S.preDotState ≠ 0) :
    extname path = String.mk ((path.toList.drop n).take 4) := by
  unfold extname
  simp only [hS]
  rw [if_neg]
  · rw [h1, h2]
    simp
  · rw [h1, h2]
    simp only [h3, false_or]
    omega

/-- Result of `extname` when the loop ends with `preDotState` zero. -/
theorem extname_of_loop_zero (path : String) (S : ExtnameState)
    (hS : extnameLoop path.toList.reverse
      { startDot := -1, startPart := 0, end_ := -1, matchedSlash := true, preDotState := 0 } = S)
    (h3 : S.preDotState = 0) :
    extname path = "" := by
  unfold extname
  simp only [hS]
  rw [if_pos]
  simp [h3]

/-- The extension of a path that ends in a dot and three characters: empty when nothing,
or a slash, stands before the dot, else the dot and the three characters. -/
theorem extname_dot3_list (p : List Char) (a b c : Char)
    (ha : a ≠ '/' ∧ a ≠ '.') (hb : b ≠ '/' ∧ b ≠ '.') (hc : c ≠ '/' ∧ c ≠ '.') :
    extname (String.mk (p ++ ['.', a, b, c]))
      = if p = [] ∨ p.getLast? = some '/' then "" else String.mk ['.', a, b, c] := by
  have hrev : (String.mk (p ++ ['.', a, b, c])).toList.reverse
      = c :: b :: a :: '.' :: p.reverse := by simp [String.toList]
  have hloop := extnameLoop_suffix p.reverse a b c ha hb hc
  rw [← hrev, List.length_reverse] at hloop
  rcases List.eq_nil_or_concat p with hp | ⟨q, x, hp⟩
  · subst hp
    rw [if_pos (Or.inl rfl)]
    exact extname_of_loop_zero _ _ hloop rfl
  · rw [List.concat_eq_append] at hp
    have hlen : (p.length : Int) ≠ -1 := by omega
    have hlen4 : (p.length : Int) + 4 ≠ -1 := by omega
    by_cases hx : x = '/'
    · rw [if_pos (Or.inr (by simp [hp, hx]))]
      apply extname_of_loop_zero _ _ hloop
      rw [hp, List.reverse_append, List.reverse_singleton, List.singleton_append, hx, extnameLoop]
      simp [afterDot]
    · rw [if_neg (by simp [hp, hx])]
      have hgen : ∀ n : Nat, extnameLoop (q ++ [x]).reverse (afterDot n 0)
          = extnameLoop q.reverse (afterDot n (if x = '.' then 1 else -1)) := by
        intro n
        rw [List.reverse_append, List.reverse_singleton, List.singleton_append,
          extnameLoop_after x _ _ hx (show (n : Int) + 4 ≠ -1 by omega)
            (show (n : Int) ≠ -1 by omega)]
        rfl
      have hstep : extnameLoop p.reverse (afterDot p.length 0)
          = extnameLoop q.reverse (afterDot p.length (if x = '.' then 1 else -1)) := by
        rw [show p.reverse = (q ++ [x]).reverse by rw [hp]]
        exact hgen p.length
      obtain ⟨h1, h2, h3⟩ := extnameLoop_keeps q.reverse
        (afterDot p.length (if x = '.' then 1 else -1)) hlen hlen4
      have h3 := h3 (by show (if x = '.' then (1 : Int) else -1) ≠ 0; split <;> decide)
      rw [extname_of_loop _ _ p.length (hloop.trans hstep) h1 h2 h3]
      simp [String.toList]

/-- The same on strings. -/
theorem extname_dot3 (p : String) (a b c : Char)
    (ha : a ≠ '/' ∧ a ≠ '.') (hb : b ≠ '/' ∧ b ≠ '.') (hc : c ≠ '/' ∧ c ≠ '.') :
    extname (p ++ String.mk ['.', a, b, c])
      = if p = "" ∨ p.toList.getLast? = some '/' then "" else String.mk ['.', a, b, c] := by
  cases p with
  | mk l =>
    have := extname_dot3_list l a b c ha hb hc
    have e : (String.mk l = "") ↔ l = [] := by simp [String.ext_iff]
    rw [show String.mk l ++ String.mk ['.', a, b, c] = String.mk (l ++ ['.', a, b, c]) from rfl,
      this]
    simp only [e, String.toList]

/-! ## Lemmas: the switch of `getMediaType` -/

/-- The switch returns one of the four kinds. -/
theorem mediaTypeOfExtension_mem (ext : String) :
    mediaTypeOfExtension ext ∈ ["image", "video", "audio", "document"] := by
  unfold mediaTypeOfExtension
  split_ifs <;> simp

/-- No kind is the key `caption`. -/
theorem getMediaType_ne_caption (m : String) : getMediaType m ≠ "caption" := by
  have h := mediaTypeOfExtension_mem (extension m)
  intro hc
  unfold getMediaType at hc
  rw [hc] at h
  revert h
  decide

/-- A reference that ends in `.png` is an image. -/
theorem getMediaType_png (p : String) : getMediaType (p ++ ".png") = "image" := by
  unfold getMediaType extension
  rw [show (".png" : String) = String.mk ['.', 'p', 'n', 'g'] from rfl,
    extname_dot3 p 'p' 'n' 'g' (by decide) (by decide) (by decide)]
  split <;> decide

/-- A reference that ends in `.xyz` is an image. -/
theorem getMediaType_xyz (p : String) : getMediaType (p ++ ".xyz") = "image" := by
  unfold getMediaType extension
  rw [show (".xyz" : String) = String.mk ['.', 'x', 'y', 'z'] from rfl,
    extname_dot3 p 'x' 'y' 'z' (by decide) (by decide) (by decide)]
  split <;> decide

/-- A reference that ends in `.mp4` is a video, unless nothing or a slash stands before
the dot. -/
theorem getMediaType_mp4 (p : String) :
    getMediaType (p ++ ".mp4")
      = if p = "" ∨ p.toList.getLast? = some '/' then "image" else "video" := by
  unfold getMediaType extension
  rw [show (".mp4" : String) = String.mk ['.', 'm', 'p', '4'] from rfl,
    extname_dot3 p 'm' 'p' '4' (by decide) (by decide) (by decide)]
  split <;> decide

/-- A reference that ends in `.pdf` is a document, unless nothing or a slash stands before
the dot. -/
theorem getMediaType_pdf (p : String) :
    getMediaType (p ++ ".pdf")
      = if p = "" ∨ p.toList.getLast? = some '/' then "image" else "document" := by
  unfold getMediaType extension
  rw [show (".pdf" : String) = String.mk ['.', 'p', 'd', 'f'] from rfl,
    extname_dot3 p 'p' 'd' 'f' (by decide) (by decide) (by decide)]
  split <;> decide

/-! ## Lemmas: `sendMessage` -/

/-- On a ready client `sendMessage` makes exactly one provider call. -/
theorem sendMessage_ready (c : WhatsAppClient) (h : Nat) (hs : c.sock = some h)
    (hc : c.isConnected = true) (reply : Except String String) (now receiver message : String)
    (media : Option String) :
    sendMessage c reply now receiver message media
      = (c, [.sockSendMessage h (formatReceiver receiver) (messageContent message media)],
          match reply with
          | .ok messageId => .ok (sendResult messageId now)
          | .error msg => .error ("Error al enviar mensaje: " ++ msg)) := by
  unfold sendMessage
  rw [hs, hc]

/-- On a client that is not ready `sendMessage` throws at once. -/
theorem sendMessage_not_ready (c : WhatsAppClient) (hn : (isReady c).truthy = false)
    (reply : Except String String) (now receiver message : String) (media : Option String) :
    sendMessage c reply now receiver message media
      = (c, [], .error "WhatsApp no está conectado") := by
  unfold sendMessage
  unfold isReady at hn
  cases hs : c.sock with
  | none => rfl
  | some h =>
    rw [hs] at hn
    have hc : c.isConnected = false := by simpa [JSVal.truthy] using hn
    rw [hc]

/-- With valid fields on a client that is not ready, the handler of `POST /send-message`
answers 503 without calling `sendMessage`. -/
theorem sendMessageHandler_not_ready (c : WhatsAppClient) (reply : Except String String)
    (now : String) (req : SendMessageRequest)
    (hm : (JSVal.ofOption req.message).truthy = true)
    (hr : (JSVal.ofOption req.receiver).truthy = true) (hn : (isReady c).truthy = false) :
    (sendMessageHandler c reply now req).1 = c ∧ (sendMessageHandler c reply now req).2.1 = [] ∧
    (sendMessageHandler c reply now req).2.2.status = 503 := by
  unfold sendMessageHandler
  simp only [hm, hr, hn]
  exact ⟨rfl, rfl, rfl⟩

/-- The destination, with the test on `@` as a proposition. -/
theorem formatReceiver_eq (r : String) :
    formatReceiver r = if '@' ∈ r.toList then r else r ++ "@s.whatsapp.net" := by
  unfold formatReceiver
  by_cases h : '@' ∈ r.toList <;> simp [h]

/-- The envelope when `media` is absent or empty. -/
theorem messageContent_text (b : String) (m : Option String) (h : m = none ∨ m = some "") :
    messageContent b m = .obj "Object" [("text", .str b)] := by
  rcases h with h | h <;> subst h <;> rfl

/-- The envelope when `media` is a non-empty string. -/
theorem messageContent_media (b s : String) (h : s ≠ "") :
    messageContent b (some s)
      = .obj "Object" [(getMediaType s, .obj "Object" [("url", .str s)]), ("caption", .str b)] := by
  unfold messageContent
  have : (JSVal.ofOption (some s)).truthy = true := by simp [JSVal.ofOption, JSVal.truthy, h]
  rw [if_pos this]
  simp [objectLiteral, setField, getMediaType_ne_caption, JSVal.ofOption]

/-! ## Lemmas: the password check -/

/-- Strict equality with a string holds for that string alone. -/
theorem strictEq_str_iff (a : JSVal) (s : String) :
    a.strictEq (.str s) = true ↔ a = .str s := by
  cases a <;> simp [JSVal.strictEq]

/-- A non-empty string is truthy. -/
theorem truthy_str_of_ne (s : String) (h : s ≠ "") : (JSVal.str s).truthy = true := by
  simp [JSVal.truthy, h]

/-- The environment variable is falsy exactly when it is not set or empty. -/
theorem expected_falsy_iff (expectedPassword : Option String) :
    (JSVal.ofOption expectedPassword).truthy = false ↔
      expectedPassword = none ∨ expectedPassword = some "" := by
  cases expectedPassword <;> simp [JSVal.ofOption, JSVal.truthy]

/-- With the variable not set or empty the middleware answers 500. -/
theorem authMiddleware_unconfigured (expectedPassword : Option String) (req : AuthRequest)
    (h : expectedPassword = none ∨ expectedPassword = some "") :
    authMiddleware expectedPassword req
      = .respond (Response.mk 500 (errorBody "API_PASSWORD no configurado en el servidor")) := by
  unfold authMiddleware
  rw [(expected_falsy_iff expectedPassword).2 h]
  rfl

/-- With the variable set to a non-empty string, the middleware on the supplied password. -/
theorem authMiddleware_configured (pw : String) (hpw : pw ≠ "") (req : AuthRequest) :
    authMiddleware (some pw) req
      = if (apiPassword req).strictEq (.str pw) then AuthOutcome.next
        else if (apiPassword req).truthy then
          AuthOutcome.respond (Response.mk 401 (errorBody "Password incorrecto"))
        else
          AuthOutcome.respond (Response.mk 401
            (errorBody "Password requerido. Usa header x-api-password o campo password en el body")) := by
  unfold authMiddleware
  have ht : (JSVal.ofOption (some pw)).truthy = true := truthy_str_of_ne pw hpw
  have ho : JSVal.ofOption (some pw) = .str pw := rfl
  rw [ht, ho]
  cases he : (apiPassword req).strictEq (.str pw)
  · cases hp : (apiPassword req).truthy <;> simp
  · rw [(strictEq_str_iff _ pw).1 he, truthy_str_of_ne pw hpw]
    simp

/-! ## The claims -/

/-- C1, as the code behaves. The close event whose `lastDisconnect.error` is a `Boom`
error with `output.statusCode` equal to `DisconnectReason.loggedOut` is a logged-out
close; the listener nevertheless schedules a retry of `connect()` after 3000 ms,
where the claim says that none is scheduled. -/
theorem C1_logged_out_close_schedules_retry (loggedOut : Int) (c : WhatsAppClient) :
    (boomError loggedOut).instanceOf "Boom" = true ∧
    ((boomError loggedOut).get "output").get "statusCode" = .num loggedOut ∧
    (closeUpdate (boomError loggedOut)).get "connection" = .str "close" ∧
    ((closeUpdate (boomError loggedOut)).get "lastDisconnect").get "error"
      = boomError loggedOut ∧
    (onConnectionUpdate loggedOut c (closeUpdate (boomError loggedOut))).2
      = [.setTimeoutConnect 3000] :=
  ⟨rfl, rfl, rfl, rfl, rfl⟩

/-- C2, as the code behaves. After `connect()`, a connection-open event and then a
connection-closed event (any reason), `isReady()` still returns `true`, while the
most recent open/close event is a close, for which the claim says `false`. -/
theorem C2_isReady_true_after_close (loggedOut : Int) (error : JSVal) :
    isReady (run loggedOut WhatsAppClient.fresh [.connect (some 1),
      .connectionUpdate openUpdate, .connectionUpdate (closeUpdate error)]).1 = .bool true ∧
    specReady [.connect (some 1), .connectionUpdate openUpdate,
      .connectionUpdate (closeUpdate error)] false false = false :=
  ⟨rfl, rfl⟩

/-- C4, against the claim as stated. The references `.mp4` and `docs/.pdf` end in `.mp4`
and `.pdf`, yet their kinds are not video and document: for `path.extname` a name
whose only dot is its first character has no extension. -/
theorem C4_dotfile_counterexample :
    (∃ p : String, ".mp4" = p ++ ".mp4") ∧ getMediaType ".mp4" = "image" ∧
    getMediaType ".mp4" ≠ "video" ∧
    (∃ p : String, "docs/.pdf" = p ++ ".pdf") ∧ getMediaType "docs/.pdf" = "image" ∧
    getMediaType "docs/.pdf" ≠ "document" :=
  ⟨⟨"", rfl⟩, by decide, by decide, ⟨"docs/", rfl⟩, by decide, by decide⟩

/-- C4, amended. Every reference that ends in `.png` or in `.xyz` is an image. A
reference that ends in `.mp4` is a video, and one that ends in `.pdf` a document,
when the part before the dot is not empty and does not end in a slash; when it is
empty or ends in a slash there is no extension and the kind is image. -/
theorem C4_kind_by_suffix (p : String) :
    getMediaType (p ++ ".png") = "image" ∧ getMediaType (p ++ ".xyz") = "image" ∧
    (p ≠ "" → p.toList.getLast? ≠ some '/' →
      getMediaType (p ++ ".mp4") = "video" ∧ getMediaType (p ++ ".pdf") = "document") ∧
    (p = "" ∨ p.toList.getLast? = some '/' →
      getMediaType (p ++ ".mp4") = "image" ∧ getMediaType (p ++ ".pdf") = "image") := by
  refine ⟨getMediaType_png p, getMediaType_xyz p, ?_, ?_⟩
  · intro h1 h2
    rw [getMediaType_mp4, getMediaType_pdf, if_neg (not_or.mpr ⟨h1, h2⟩),
      if_neg (not_or.mpr ⟨h1, h2⟩)]
    exact ⟨rfl, rfl⟩
  · intro h
    rw [getMediaType_mp4, getMediaType_pdf, if_pos h, if_pos h]
    exact ⟨rfl, rfl⟩

/-- C4, the four references the claim names. -/
theorem C4_kind_by_suffix_witness :
    getMediaType "a.png" = "image" ∧ getMediaType "a.mp4" = "video" ∧
    getMediaType "a.pdf" = "document" ∧ getMediaType "a.xyz" = "image" :=
  ⟨(C4_kind_by_suffix "a").1, ((C4_kind_by_suffix "a").2.2.1 (by decide) (by decide)).1,
    ((C4_kind_by_suffix "a").2.2.1 (by decide) (by decide)).2, (C4_kind_by_suffix "a").2.1⟩

/-- C5. On a ready client (a handle `h` exists and `isConnected` is true), whatever the
other arguments, `sendMessage` makes one provider call; its destination is
`r + "@s.whatsapp.net"` when `r` has no `@`, and `r` itself when `r` has one. -/
theorem C5_destination_normalised (c : WhatsAppClient) (h : Nat) (hs : c.sock = some h)
    (hc : c.isConnected = true) (reply : Except String String) (now r b : String)
    (m : Option String) :
    ('@' ∉ r.toList → (sendMessage c reply now r b m).2.1
      = [.sockSendMessage h (r ++ "@s.whatsapp.net") (messageContent b m)]) ∧
    ('@' ∈ r.toList → (sendMessage c reply now r b m).2.1
      = [.sockSendMessage h r (messageContent b m)]) := by
  constructor
  · intro hr
    rw [sendMessage_ready c h hs hc, formatReceiver_eq, if_neg hr]
  · intro hr
    rw [sendMessage_ready c h hs hc, formatReceiver_eq, if_pos hr]

/-- C5, the two destinations the claim names. -/
theorem C5_destination_normalised_witness :
    (sendMessage readyClient (.ok "3EB0") "2025-12-09T14:00:00.000Z" "5551234567" "hola"
        none).2.1
      = [.sockSendMessage 1 "5551234567@s.whatsapp.net" (messageContent "hola" none)] ∧
    (sendMessage readyClient (.ok "3EB0") "2025-12-09T14:00:00.000Z"
        "5551234567@s.whatsapp.net" "hola" none).2.1
      = [.sockSendMessage 1 "5551234567@s.whatsapp.net" (messageContent "hola" none)] :=
  ⟨(C5_destination_normalised readyClient 1 rfl rfl (.ok "3EB0") "2025-12-09T14:00:00.000Z"
      "5551234567" "hola" none).1 (by decide),
    (C5_destination_normalised readyClient 1 rfl rfl (.ok "3EB0") "2025-12-09T14:00:00.000Z"
      "5551234567@s.whatsapp.net" "hola" none).2 (by decide)⟩

/-- C6, against the claim as stated. With the empty string passed as media reference the
envelope submitted is `{text: b}`, not the two-entry object of the kind and the
caption. -/
theorem C6_empty_media_counterexample :
    (sendMessage readyClient (.ok "3EB0") "2025-12-09T14:00:00.000Z" "5551234567" "hola"
        (some "")).2.1
      = [.sockSendMessage 1 "5551234567@s.whatsapp.net"
          (.obj "Object" [("text", .str "hola")])] ∧
    JSVal.obj "Object" [("text", .str "hola")]
      ≠ .obj "Object" [(getMediaType "", .obj "Object" [("url", .str "")]),
          ("caption", .str "hola")] := by
  constructor
  · rfl
  · simp

/-- C6, amended. On a ready client the envelope submitted is `{text: b}` when the media
reference is absent or the empty string; when it is a non-empty string `s` the envelope
has exactly two entries, `getMediaType(s)` mapped to `{url: s}` and `caption` mapped to
`b` (two distinct keys). -/
theorem C6_envelope (c : WhatsAppClient) (h : Nat) (hs : c.sock = some h)
    (hc : c.isConnected = true) (reply : Except String String) (now r b : String)
    (m : Option String) :
    (m = none ∨ m = some "" → (sendMessage c reply now r b m).2.1
      = [.sockSendMessage h (formatReceiver r) (.obj "Object" [("text", .str b)])]) ∧
    (∀ s, m = some s → s ≠ "" → (sendMessage c reply now r b m).2.1
        = [.sockSendMessage h (formatReceiver r) (.obj "Object"
            [(getMediaType s, .obj "Object" [("url", .str s)]), ("caption", .str b)])] ∧
      getMediaType s ≠ "caption") := by
  constructor
  · intro hm
    rw [sendMessage_ready c h hs hc, messageContent_text b m hm]
  · intro s hm hne
    subst hm
    rw [sendMessage_ready c h hs hc, messageContent_media b s hne]
    exact ⟨rfl, getMediaType_ne_caption s⟩

/-- C6, a text message and a message with an image. -/
theorem C6_envelope_witness :
    (sendMessage readyClient (.ok "3EB0") "2025-12-09T14:00:00.000Z" "5551234567" "hola"
        none).2.1
      = [.sockSendMessage 1 (formatReceiver "5551234567")
          (.obj "Object" [("text", .str "hola")])] ∧
    (sendMessage readyClient (.ok "3EB0") "2025-12-09T14:00:00.000Z" "5551234567" "hola"
        (some "https://example.com/image.jpg")).2.1
      = [.sockSendMessage 1 (formatReceiver "5551234567") (.obj "Object"
          [(getMediaType "https://example.com/image.jpg",
            .obj "Object" [("url", .str "https://example.com/image.jpg")]),
           ("caption", .str "hola")])] :=
  ⟨(C6_envelope readyClient 1 rfl rfl (.ok "3EB0") "2025-12-09T14:00:00.000Z" "5551234567"
      "hola" none).1 (Or.inl rfl),
    ((C6_envelope readyClient 1 rfl rfl (.ok "3EB0") "2025-12-09T14:00:00.000Z" "5551234567"
      "hola" (some "https://example.com/image.jpg")).2 _ rfl (by decide)).1⟩

/-- C7. Whenever the readiness predicate is false at call time, `sendMessage` fails with
the error `WhatsApp no está conectado`, performs no effect at all (no provider call) and
leaves the client as it was; it calls the provider only if a handle exists and
`isConnected` is true; and it never changes the client. -/
theorem C7_send_only_when_ready (c : WhatsAppClient) (reply : Except String String)
    (now r b : String) (m : Option String) :
    ((isReady c).truthy = false →
      sendMessage c reply now r b m = (c, [], .error "WhatsApp no está conectado")) ∧
    ((sendMessage c reply now r b m).2.1 ≠ [] →
      (∃ h, c.sock = some h) ∧ c.isConnected = true) ∧
    (sendMessage c reply now r b m).1 = c := by
  refine ⟨fun hn => sendMessage_not_ready c hn reply now r b m, ?_, ?_⟩
  · intro hne
    cases hr : (isReady c).truthy
    · rw [sendMessage_not_ready c hr] at hne
      exact absurd rfl hne
    · obtain ⟨h, hs, hc⟩ := (ready_iff c).1 hr
      exact ⟨⟨h, hs⟩, hc⟩
  · cases hr : (isReady c).truthy
    · rw [sendMessage_not_ready c hr]
    · obtain ⟨h, hs, hc⟩ := (ready_iff c).1 hr
      rw [sendMessage_ready c h hs hc]

/-- C7, on a fresh client and on a client that has a handle but no open connection. -/
theorem C7_send_only_when_ready_witness :
    sendMessage WhatsAppClient.fresh (.ok "3EB0") "2025-12-09T14:00:00.000Z" "5551234567"
        "hola" none
      = (WhatsAppClient.fresh, [], .error "WhatsApp no está conectado") ∧
    sendMessage (connect WhatsAppClient.fresh (some 1)).1 (.ok "3EB0")
        "2025-12-09T14:00:00.000Z" "5551234567" "hola" none
      = ((connect WhatsAppClient.fresh (some 1)).1, [], .error "WhatsApp no está conectado") :=
  ⟨(C7_send_only_when_ready WhatsAppClient.fresh (.ok "3EB0") "2025-12-09T14:00:00.000Z"
      "5551234567" "hola" none).1 rfl,
    (C7_send_only_when_ready (connect WhatsAppClient.fresh (some 1)).1 (.ok "3EB0")
      "2025-12-09T14:00:00.000Z" "5551234567" "hola" none).1 rfl⟩

/-- C8, against the claim as stated. A client on which `disconnect()` has just been
called is not ready, yet a second `disconnect()` calls `end()` on the provider handle
again: the first call keeps the handle in `sock`. -/
theorem C8_second_disconnect_counterexample :
    (isReady (disconnect (connect WhatsAppClient.fresh (some 1)).1).1).truthy = false ∧
    (disconnect (disconnect (connect WhatsAppClient.fresh (some 1)).1).1).2 = [.sockEnd 1] ∧
    ((disconnect (disconnect (connect WhatsAppClient.fresh (some 1)).1).1).2.any
      Effect.isProviderCall) = true :=
  ⟨rfl, rfl, rfl⟩

/-- C8, amended. For every client, a second `disconnect()` in a row changes no field, so
that two calls leave the same state as one; on a client without a handle (a fresh one)
`disconnect()` does nothing at all; on a client with a handle `h`, the first call keeps
the handle and the second call invokes `end()` on it again. -/
theorem C8_disconnect_state_idempotent (c : WhatsAppClient) :
    (disconnect (disconnect c).1).1 = (disconnect c).1 ∧
    (c.sock = none → disconnect c = (c, [])) ∧
    disconnect WhatsAppClient.fresh = (WhatsAppClient.fresh, []) ∧
    (∀ h, c.sock = some h → (disconnect c).1.sock = some h ∧
      (disconnect (disconnect c).1).2 = [.sockEnd h]) := by
  unfold disconnect
  cases hs : c.sock with
  | none => simp [hs, WhatsAppClient.fresh]
  | some h => simp [WhatsAppClient.fresh]

/-- C8, on a fresh client and on a connected one. -/
theorem C8_disconnect_state_idempotent_witness :
    disconnect WhatsAppClient.fresh = (WhatsAppClient.fresh, []) ∧
    (disconnect (disconnect readyClient).1).1 = (disconnect readyClient).1 ∧
    (disconnect (disconnect readyClient).1).2 = [.sockEnd 1] :=
  ⟨(C8_disconnect_state_idempotent WhatsAppClient.fresh).2.1 rfl,
    (C8_disconnect_state_idempotent readyClient).1,
    ((C8_disconnect_state_idempotent readyClient).2.2.2 1 rfl).2⟩

/-- C9, as the code behaves. On a fresh client `isReady()` returns `null`, which is not a
boolean, and `GET /status` answers `success: true` with `whatsapp_connected: null`,
where the claim says a boolean. -/
theorem C9_isReady_null_on_fresh_client (now : String) :
    isReady WhatsAppClient.fresh = .null ∧
    (∀ b : Bool, isReady WhatsAppClient.fresh ≠ .bool b) ∧
    (statusHandler WhatsAppClient.fresh now).status = 200 ∧
    (statusHandler WhatsAppClient.fresh now).body.get "success" = .bool true ∧
    (statusHandler WhatsAppClient.fresh now).body.get "whatsapp_connected" = .null := by
  refine ⟨rfl, ?_, rfl, rfl, rfl⟩
  intro b hb
  simp [isReady, WhatsAppClient.fresh] at hb

/-- C11. For every request, `authMiddleware` calls `next()` (and sends nothing) if and
only if `API_PASSWORD` is configured, that is set to a non-empty string, and the
supplied password equals it; when `API_PASSWORD` is not configured (not set, or empty)
every request gets the 500 error; when it is configured and the supplied password is
missing or different the request gets a 401 and `next()` is not called. The supplied
password is the header `x-api-password` when it is a non-empty string, or else the
`password` field of the body. -/
theorem C11_authMiddleware_gate (expectedPassword : Option String) (req : AuthRequest) :
    (authMiddleware expectedPassword req = .next ↔
      ∃ pw, expectedPassword = some pw ∧ pw ≠ "" ∧ apiPassword req = .str pw) ∧
    (expectedPassword = none ∨ expectedPassword = some "" →
      authMiddleware expectedPassword req
        = .respond (Response.mk 500 (errorBody "API_PASSWORD no configurado en el servidor"))) ∧
    (∀ pw, expectedPassword = some pw → pw ≠ "" → apiPassword req ≠ .str pw →
      ∃ msg, authMiddleware expectedPassword req
        = .respond (Response.mk 401 (errorBody msg))) ∧
    (∀ h, req.header = some h → h ≠ "" → apiPassword req = .str h) ∧
    (req.header = none ∨ req.header = some "" →
      apiPassword req = req.body.and (req.body.get "password")) := by
  refine ⟨?_, authMiddleware_unconfigured expectedPassword req, ?_, ?_, ?_⟩
  · constructor
    · intro hn
      cases he : expectedPassword with
      | none =>
        rw [authMiddleware_unconfigured expectedPassword req (Or.inl he)] at hn
        cases hn
      | some pw =>
        by_cases hpw : pw = ""
        · rw [authMiddleware_unconfigured expectedPassword req (Or.inr (by rw [he, hpw]))] at hn
          cases hn
        · refine ⟨pw, rfl, hpw, ?_⟩
          rw [he, authMiddleware_configured pw hpw] at hn
          cases hs : (apiPassword req).strictEq (.str pw)
          · rw [hs] at hn
            cases ht : (apiPassword req).truthy <;> rw [ht] at hn <;> simp at hn
          · exact (strictEq_str_iff _ pw).1 hs
    · rintro ⟨pw, he, hpw, hs⟩
      rw [he, authMiddleware_configured pw hpw, (strictEq_str_iff _ pw).2 hs]
      rfl
  · intro pw he hpw hne
    have hs : (apiPassword req).strictEq (.str pw) = false := by
      cases hc : (apiPassword req).strictEq (.str pw)
      · rfl
      · exact absurd ((strictEq_str_iff _ pw).1 hc) hne
    rw [he, authMiddleware_configured pw hpw, hs]
    cases (apiPassword req).truthy
    · exact ⟨_, rfl⟩
    · exact ⟨_, rfl⟩
  · intro h hh hne
    unfold apiPassword
    rw [hh]
    simp [JSVal.or, JSVal.ofOption, JSVal.truthy, hne]
  · intro hh
    unfold apiPassword
    rcases hh with hh | hh <;> rw [hh] <;> rfl

/-- C11, on four requests: the right password in the header, the right password in the
body, a wrong password, and any request while `API_PASSWORD` is not set. -/
theorem C11_authMiddleware_gate_witness :
    authMiddleware (some "s3cret") { header := some "s3cret", body := .undefined } = .next ∧
    authMiddleware (some "s3cret")
      { header := none, body := objectLiteral [("password", .str "s3cret")] } = .next ∧
    (∃ msg, authMiddleware (some "s3cret")
      { header := some "guess", body := objectLiteral [("password", .str "s3cret")] }
        = .respond (Response.mk 401 (errorBody msg))) ∧
    authMiddleware none { header := some "s3cret", body := .undefined }
      = .respond (Response.mk 500 (errorBody "API_PASSWORD no configurado en el servidor")) :=
  ⟨(C11_authMiddleware_gate (some "s3cret") { header := some "s3cret", body := .undefined }).1.2
      ⟨"s3cret", rfl, by decide, rfl⟩,
    (C11_authMiddleware_gate (some "s3cret")
      { header := none, body := objectLiteral [("password", .str "s3cret")] }).1.2
      ⟨"s3cret", rfl, by decide, rfl⟩,
    (C11_authMiddleware_gate (some "s3cret")
      { header := some "guess", body := objectLiteral [("password", .str "s3cret")] }).2.2.1
      "s3cret" rfl (by decide) (by simp [apiPassword, JSVal.or, JSVal.ofOption, JSVal.truthy]),
    (C11_authMiddleware_gate none { header := some "s3cret", body := .undefined }).2.1
      (Or.inl rfl)⟩

end WhatsAppApi
